import Mathlib

/-!
Verification of the page-translation core of the chrome-ai-translator extension.

The development shallowly embeds the relevant source functions:
- src/shared/translation-core.js, class TranslationCore (normalizeLanguage,
  detectLanguage, translate, smartTranslate, batchTranslate);
- src/background/service-worker.js, BackgroundService.handleTranslateRequest;
- src/content/content-script.js, class ContentTranslator (getPageTextNodes,
  getVisibleTextNodes, isElementInViewport, appendTranslationToNode,
  handleTranslatePage, handleCancelTranslatePage, translateNewlyVisibleContent,
  handleTextSelection, constructor/init).

JavaScript strings are modelled as Lean String values, DOM documents as a tree of
element and text nodes, the host Translator and LanguageDetector capabilities as an
explicit environment of oracles, and the asynchronous per-fragment loops as folds,
with an explicit interleaving point for the cooperative-cancellation scenario.
-/

namespace ChromeAiTranslator

/-! ### JavaScript string primitives

The built-in Lean string functions trim and toLower are implemented through
position-based auxiliaries that the kernel does not reduce, so the JavaScript
string operations used by the source are re-implemented over the character list. -/

/-- JavaScript String.prototype.trim: strip leading and trailing whitespace. -/
def jsTrim (s : String) : String :=
  String.mk (((s.data.dropWhile Char.isWhitespace).reverse.dropWhile Char.isWhitespace).reverse)

/-- JavaScript String.prototype.toLowerCase (on the alphabets the source cares about). -/
def jsToLower (s : String) : String :=
  String.mk (s.data.map Char.toLower)

/-- Does the second list occur as a contiguous run inside the first? -/
def listHasRun (l sub : List Char) : Bool :=
  sub.isPrefixOf l ||
    match l with
    | [] => false
    | _ :: rest => listHasRun rest sub

/-- JavaScript String.prototype.includes. -/
def jsIncludes (s sub : String) : Bool :=
  listHasRun s.data sub.data

/-- JavaScript str.replace(c, d) with single-character string arguments replaces only
the first occurrence; this renders replace of an underscore by a dash. -/
def replaceFirstUnderscore : List Char → List Char
  | [] => []
  | c :: cs => if c = '_' then '-' :: cs else c :: replaceFirstUnderscore cs

/-! ### TranslationCore (src/shared/translation-core.js) -/

/-- TranslationCore.normalizeLanguage (translation-core.js 1164 to 1167 in the bundled
service worker): if the argument is falsy return the empty string, otherwise
lower-case, replace the first underscore with a dash, split on dashes and return the
first segment. The JavaScript split on a dash followed by indexing 0 is rendered as
the prefix of the string that precedes the first dash. -/
def normalizeLanguage (language : String) : String :=
  if language = "" then ""
  else String.mk ((replaceFirstUnderscore (jsToLower language).data).takeWhile (fun c => c ≠ '-'))

/-- The same entry point when the JavaScript caller passes null or undefined (both are
falsy, like the empty string). -/
def normalizeLanguageOpt : Option String → String
  | none => ""
  | some language => normalizeLanguage language

/-- The normalization contract as the spec words it (section 4.1): lower-case, replace
underscores with dashes, split on dashes, return the first segment. Stated as a second
definition, following the spec rather than the source, for comparison with
normalizeLanguage. -/
def normalizeSpec (language : String) : String :=
  if language = "" then ""
  else
    String.mk (((jsToLower language).data.map (fun c => if c = '_' then '-' else c)).takeWhile
      (fun c => c ≠ '-'))

/-- The host capabilities consumed by TranslationCore: presence of the Translator and
LanguageDetector APIs, the top-ranked detection result for a given text (none models
a failed or empty detection), and the translation engine as an oracle from text and
language pair to a result or a thrown error message. -/
structure HostEnv where
  translatorAvailable : Bool
  detectorAvailable : Bool
  detection : String → Option String
  engine : String → String → String → Except String String

/-- Counts of host-capability invocations performed by one call. -/
structure CallLog where
  detectCalls : Nat
  engineCalls : Nat
deriving Repr, DecidableEq

/-- TranslationCore.detectLanguage (translation-core.js 1061 to 1087): if the
LanguageDetector API is absent, or detection yields no result, an empty tag or an
error, fall back to the default tag en; otherwise return the detected language. -/
def detectLanguage (env : HostEnv) (text : String) : String :=
  if !env.detectorAvailable then "en"
  else
    match env.detection text with
    | some detected => if detected = "" then "en" else detected
    | none => "en"

/-- TranslationCore.translate (translation-core.js 1096 to 1114): throw when the
Translator API is absent; otherwise invoke the engine, falling back to the input text
when the engine returns an empty string (result or-else text), and rethrow engine
errors with the prefix the source adds. The second component counts engine
invocations. -/
def translate (env : HostEnv) (text sourceLanguage targetLanguage : String) :
    Except String String × Nat :=
  if !env.translatorAvailable then
    (Except.error "翻译失败: Translator API 不可用", 0)
  else
    match env.engine text sourceLanguage targetLanguage with
    | Except.ok result => (Except.ok (if result = "" then text else result), 1)
    | Except.error e => (Except.error ("翻译失败: " ++ e), 1)

/-- The record smartTranslate resolves with. -/
structure TranslationRequestResult where
  result : String
  sourceLanguage : String
  targetLanguage : String
deriving Repr, DecidableEq

/-- The actual source language used by smartTranslate: the tag auto triggers
detection, any other tag is used as given. -/
def resolveSource (env : HostEnv) (text sourceLanguage : String) : String :=
  if sourceLanguage = "auto" then detectLanguage env text else sourceLanguage

/-- TranslationCore.smartTranslate (translation-core.js 1025 to 1054): reject blank
input; resolve the source language (detecting when it is auto); when the normalized
source equals the normalized target, return the input text unchanged without calling
the engine; otherwise translate and wrap the result. -/
def smartTranslate (env : HostEnv) (text sourceLanguage targetLanguage : String) :
    Except String TranslationRequestResult × CallLog :=
  if jsTrim text = "" then
    (Except.error "翻译文本不能为空", ⟨0, 0⟩)
  else
    let detects : Nat := if sourceLanguage = "auto" then 1 else 0
    let actualSourceLanguage := resolveSource env text sourceLanguage
    if normalizeLanguage actualSourceLanguage = normalizeLanguage targetLanguage then
      (Except.ok ⟨text, actualSourceLanguage, targetLanguage⟩, ⟨detects, 0⟩)
    else
      match translate env text actualSourceLanguage targetLanguage with
      | (Except.ok translated, n) =>
          (Except.ok ⟨translated, actualSourceLanguage, targetLanguage⟩, ⟨detects, n⟩)
      | (Except.error e, n) => (Except.error e, ⟨detects, n⟩)

/-- One entry of the batchTranslate result array. -/
structure BatchItem where
  original : String
  translated : String
  sourceLanguage : String
deriving Repr, DecidableEq

/-- TranslationCore.batchTranslate (translation-core.js 1124 to 1157): sequential
application of smartTranslate to each item; a throwing item is caught and pushed with
the original text as its translation and the loop continues, so the per-item results
are independent of each other and the result list is in input order. The inter-item
delay and the progress callback do not affect the results. -/
def batchTranslate (env : HostEnv) (texts : List String) (sourceLanguage targetLanguage : String) :
    List BatchItem :=
  texts.map fun text =>
    match (smartTranslate env text sourceLanguage targetLanguage).1 with
    | Except.ok r => ⟨text, r.result, r.sourceLanguage⟩
    | Except.error _ => ⟨text, text, if sourceLanguage = "auto" then "en" else sourceLanguage⟩

/-! ### BackgroundService message handler (src/background/service-worker.js) -/

/-- The error-message mapping of BackgroundService.handleTranslateRequest
(service-worker.js 212 to 229). -/
def mapTranslateError (e : String) : String :=
  if jsIncludes e "not supported" then "不支持的语言对"
  else if jsIncludes e "model" then "翻译模型不可用，请稍后再试"
  else if jsIncludes e "network" then "网络错误，请检查网络连接"
  else "翻译失败，请重试"

/-- BackgroundService.handleTranslateRequest (service-worker.js 176 to 231): reject
blank text, text over 5000 characters and an absent Translator API, then delegate to
smartTranslate, mapping a thrown error to a user-facing message. -/
def handleTranslateRequest (env : HostEnv) (text sourceLanguage targetLanguage : String) :
    Except String TranslationRequestResult × CallLog :=
  if jsTrim text = "" then (Except.error "翻译文本不能为空", ⟨0, 0⟩)
  else if text.length > 5000 then (Except.error "文本长度超过5000字符限制", ⟨0, 0⟩)
  else if !env.translatorAvailable then
    (Except.error "当前浏览器版本不支持AI翻译功能，请升级到Chrome 138或更高版本", ⟨0, 0⟩)
  else
    match smartTranslate env text sourceLanguage targetLanguage with
    | (Except.ok r, log) => (Except.ok r, log)
    | (Except.error e, log) => (Except.error (mapTranslateError e), log)

/-- ContentTranslator.translateText (content-script.js 759 to 783): sends a
TRANSLATE_TEXT message to the background service worker and resolves with its
response on success, rejecting with the reported error otherwise; the behaviour is
that of BackgroundService.handleTranslateRequest. -/
def translateText (env : HostEnv) (text sourceLanguage targetLanguage : String) :
    Except String TranslationRequestResult × CallLog :=
  handleTranslateRequest env text sourceLanguage targetLanguage

/-! ### DOM model (for src/content/content-script.js)

A document is a tree of element nodes (tag, id attribute, class list, bounding
client rect) and text nodes. Text nodes carry a numeric label standing for
JavaScript node identity (references), since fragment identity in the source is node
identity, not content. The child list is its own inductive so that all functions are
structurally recursive and reduce inside the kernel. -/

/-- The part of getBoundingClientRect the source reads; bottom and right are derived
as top plus height and left plus width. -/
structure Rect where
  top : Int
  left : Int
  width : Int
  height : Int
deriving Repr, DecidableEq

/-- The element attributes the content script inspects. -/
structure ElemData where
  tag : String
  idAttr : String
  classes : List String
  rect : Rect
deriving Repr, DecidableEq

mutual
/-- A DOM node: an element with children, or a text node with an identity label and
its textContent. -/
inductive Dom where
  | text (nodeId : Nat) (content : String) : Dom
  | elem (data : ElemData) (children : DomList) : Dom
deriving Repr, DecidableEq

/-- A list of sibling DOM nodes in document order. -/
inductive DomList where
  | nil : DomList
  | cons (hd : Dom) (tl : DomList) : DomList
deriving Repr, DecidableEq
end

/-- Build a sibling list from a Lean list literal. -/
def DomList.ofList : List Dom → DomList
  | [] => .nil
  | d :: ds => .cons d (DomList.ofList ds)

/-- The ids of the elements the extension injects itself (icon, popup, progress
banner), matched by the closest calls in getPageTextNodes. -/
def extensionOwnedIds : List String :=
  ["chrome-ai-translator-icon", "chrome-ai-translator-popup", "translation-progress"]

/-- Does this element match one of the extension-owned selectors of getPageTextNodes
(content-script.js 1017 to 1023): one of the injected ids, or the class
translation-append? closest walks ancestors, so the flag is accumulated while
descending the tree. -/
def isExtensionOwned (d : ElemData) : Bool :=
  extensionOwnedIds.contains d.idAttr || d.classes.contains "translation-append"

/-- The non-content tags rejected by getPageTextNodes (content-script.js 1011 to
1014). -/
def excludedTags : List String :=
  ["script", "style", "noscript", "meta", "title", "head"]

/-- One character of the class [a-zA-Z, CJK unified 4e00 to 9fa5, hiragana 3040 to
309f, katakana 30a0 to 30ff] from the meaningful-text regex (content-script.js
1031). -/
def isMeaningfulChar (c : Char) : Bool :=
  (decide ('a' ≤ c) && decide (c ≤ 'z')) ||
  (decide ('A' ≤ c) && decide (c ≤ 'Z')) ||
  (decide (0x4e00 ≤ c.toNat) && decide (c.toNat ≤ 0x9fa5)) ||
  (decide (0x3040 ≤ c.toNat) && decide (c.toNat ≤ 0x309f)) ||
  (decide (0x30a0 ≤ c.toNat) && decide (c.toNat ≤ 0x30ff))

/-- The regex test of getPageTextNodes: the text contains at least one meaningful
character. -/
def hasMeaningfulChar (s : String) : Bool :=
  s.data.any isMeaningfulChar

/-- The per-text checks of the acceptNode filter (content-script.js 1025 to 1032):
the trimmed content is non-empty, at most 500 characters long and passes the
meaningful-character test. -/
def textQualifies (s : String) : Bool :=
  if (jsTrim s).length = 0 ∨ (jsTrim s).length > 500 then false
  else hasMeaningfulChar (jsTrim s)

/-- parent.querySelector with the selector .translation-append, as a Boolean over the
descendants of an element given by its child list (content-script.js 1036). -/
def listHasAppend : DomList → Bool
  | .nil => false
  | .cons (.text _ _) rest => listHasAppend rest
  | .cons (.elem d cs) rest =>
      d.classes.contains "translation-append" || listHasAppend cs || listHasAppend rest

/-- A discovered translatable fragment: the text node label, its raw textContent, and
the data of its parent element the later stages read (bounding rect for the viewport
check, presence of a translation-append descendant for the incremental re-filter).
Every check of the acceptNode filter is already true of a collected fragment. -/
structure Fragment where
  nodeId : Nat
  content : String
  parentRect : Rect
  parentHasAppend : Bool
deriving Repr, DecidableEq

/-- The TreeWalker traversal of ContentTranslator.getPageTextNodes (content-script.js
1000 to 1052) under one element: accept says whether the current parent element
passed the structural checks of the acceptNode filter (tag not excluded, not inside
extension-owned chrome, no translation-append descendant), ownUI accumulates the
closest checks over the ancestors, prect and phasApp carry the parent data recorded
in the fragment. Text nodes are emitted in document order. -/
def collectChildren (accept : Bool) (ownUI : Bool) (prect : Rect) (phasApp : Bool) :
    DomList → List Fragment
  | .nil => []
  | .cons (.text i s) rest =>
      (if accept && textQualifies s then [⟨i, s, prect, phasApp⟩] else []) ++
        collectChildren accept ownUI prect phasApp rest
  | .cons (.elem d cs) rest =>
      collectChildren
        (!(excludedTags.contains d.tag) && !(ownUI || isExtensionOwned d) &&
          !(listHasAppend cs))
        (ownUI || isExtensionOwned d) d.rect (listHasAppend cs) cs ++
        collectChildren accept ownUI prect phasApp rest

/-- ContentTranslator.getPageTextNodes on a whole document, rooted at the body
element. -/
def getPageTextNodes : Dom → List Fragment
  | .text _ _ => []
  | .elem d cs =>
      collectChildren
        (!(excludedTags.contains d.tag) && !(isExtensionOwned d) && !(listHasAppend cs))
        (isExtensionOwned d) d.rect (listHasAppend cs) cs

/-- ContentTranslator.isElementInViewport (content-script.js 1074 to 1090): the
bounding rect has positive size and intersects the window rectangle. -/
def isElementInViewport (windowWidth windowHeight : Int) (r : Rect) : Bool :=
  decide (r.top + r.height > 0) && decide (r.left + r.width > 0) &&
  decide (r.top < windowHeight) && decide (r.left < windowWidth) &&
  decide (r.width > 0) && decide (r.height > 0)

/-- ContentTranslator.getVisibleTextNodes (content-script.js 1057 to 1069): the page
text nodes whose parent element intersects the viewport. -/
def getVisibleTextNodes (windowWidth windowHeight : Int) (doc : Dom) : List Fragment :=
  (getPageTextNodes doc).filter (fun f => isElementInViewport windowWidth windowHeight f.parentRect)

/-! ### Annotations (appendTranslationToNode and cancellation) -/

/-- A rect for freshly created spans; never consulted by the modelled algorithms. -/
def zeroRect : Rect := ⟨0, 0, 0, 0⟩

/-- The textContent of the injected span (content-script.js 1210 to 1217): the
translation in brackets, or the failure marker. -/
def annotationText (translatedText : String) (isError : Bool) : String :=
  if isError then " [翻译失败]" else " [" ++ translatedText ++ "]"

/-- The span element appendTranslationToNode creates (content-script.js 1207 to
1208), with classes translation-append and translated-text; the inner text node is a
fresh node, labelled 0 here since the algorithms never select it by identity. -/
def annotationSpan (content : String) : Dom :=
  .elem ⟨"span", "", ["translation-append", "translated-text"], zeroRect⟩
    (.cons (.text 0 content) .nil)

/-- Remove the first descendant element with class translation-append, in document
order, from a sibling list; the flag reports whether one was removed. This is
parent.querySelector followed by remove (content-script.js 1201 to 1204). -/
def removeFirstAppendList : DomList → DomList × Bool
  | .nil => (.nil, false)
  | .cons (.text i s) rest =>
      let (rest', b) := removeFirstAppendList rest
      (.cons (.text i s) rest', b)
  | .cons (.elem d cs) rest =>
      if d.classes.contains "translation-append" then (rest, true)
      else
        match removeFirstAppendList cs with
        | (cs', true) => (.cons (.elem d cs') rest, true)
        | (_, false) =>
            let (rest', b) := removeFirstAppendList rest
            (.cons (.elem d cs) rest', b)

/-- Does the sibling list contain a text node with this label as a direct entry? This
is textNode.parentElement identification: the element whose child list passes this
test is the parent of the node. -/
def hasDirectText (targetId : Nat) : DomList → Bool
  | .nil => false
  | .cons (.text i _) rest => i = targetId || hasDirectText targetId rest
  | .cons (.elem _ _) rest => hasDirectText targetId rest

/-- Insert a node immediately after the text node with the given label (insertBefore
of the next sibling, or appendChild when the text node is last; content-script.js
1220 to 1224). -/
def insertAfterText (targetId : Nat) (span : Dom) : DomList → DomList
  | .nil => .nil
  | .cons (.text i s) rest =>
      if i = targetId then .cons (.text i s) (.cons span rest)
      else .cons (.text i s) (insertAfterText targetId span rest)
  | .cons e rest => .cons e (insertAfterText targetId span rest)

/-- Recursive search for the parent of the target text node, applying the
remove-then-insert of appendTranslationToNode at that parent. -/
def appendTranslationList (targetId : Nat) (span : Dom) : DomList → DomList
  | .nil => .nil
  | .cons (.text i s) rest => .cons (.text i s) (appendTranslationList targetId span rest)
  | .cons (.elem d cs) rest =>
      let cs' :=
        if hasDirectText targetId cs then
          insertAfterText targetId span (removeFirstAppendList cs).1
        else appendTranslationList targetId span cs
      .cons (.elem d cs') (appendTranslationList targetId span rest)

/-- ContentTranslator.appendTranslationToNode (content-script.js 1196 to 1225): at
the parent of the target text node, remove the first translation-append descendant if
any, then insert the annotation span right after the text node. A text node without a
parent, or an absent target, leaves the document unchanged. -/
def appendTranslationToNode (doc : Dom) (targetId : Nat) (translatedText : String)
    (isError : Bool) : Dom :=
  let span := annotationSpan (annotationText translatedText isError)
  match doc with
  | .text i s => .text i s
  | .elem d cs =>
      if hasDirectText targetId cs then
        .elem d (insertAfterText targetId span (removeFirstAppendList cs).1)
      else .elem d (appendTranslationList targetId span cs)

/-- Remove every element with class translation-append from a sibling list:
document.querySelectorAll forEach remove (content-script.js 955 to 958). -/
def removeAllAppendList : DomList → DomList
  | .nil => .nil
  | .cons (.text i s) rest => .cons (.text i s) (removeAllAppendList rest)
  | .cons (.elem d cs) rest =>
      if d.classes.contains "translation-append" then removeAllAppendList rest
      else .cons (.elem d (removeAllAppendList cs)) (removeAllAppendList rest)

/-- Remove every translation-append element from the document. -/
def removeAllAppend : Dom → Dom
  | .text i s => .text i s
  | .elem d cs => .elem d (removeAllAppendList cs)

/-- Count the translation-append elements in a sibling list (the Annotation markers
present in the document). -/
def countAppendList : DomList → Nat
  | .nil => 0
  | .cons (.text _ _) rest => countAppendList rest
  | .cons (.elem d cs) rest =>
      (if d.classes.contains "translation-append" then 1 else 0) +
        countAppendList cs + countAppendList rest

/-- Count the translation-append elements in the document. -/
def countAppend : Dom → Nat
  | .text _ _ => 0
  | .elem _ cs => countAppendList cs

/-- Is this node an element with class translation-append? -/
def isAppendElem : Dom → Bool
  | .text _ _ => false
  | .elem d _ => d.classes.contains "translation-append"

/-- Does the text node with this label have an Annotation: an immediately following
sibling that is a translation-append element? -/
def annotatedIn (targetId : Nat) : DomList → Bool
  | .nil => false
  | .cons (.text i _) rest =>
      (match rest with
       | .cons n _ => decide (i = targetId) && isAppendElem n
       | .nil => false) || annotatedIn targetId rest
  | .cons (.elem _ cs) rest => annotatedIn targetId cs || annotatedIn targetId rest

/-- Document-level version of annotatedIn. -/
def annotationAfterNode (doc : Dom) (targetId : Nat) : Bool :=
  match doc with
  | .text _ _ => false
  | .elem _ cs => annotatedIn targetId cs

/-! ### Page-translation session (ContentTranslator state and sweeps) -/

/-- The session state the content script keeps: the isPageTranslated flag and whether
the scroll-translation listener is attached. -/
structure SessionState where
  isPageTranslated : Bool
  scrollListenerActive : Bool
deriving Repr, DecidableEq

/-- The state set by the ContentTranslator constructor (content-script.js 40 to 48):
isPageTranslated is false and no scroll listener is attached. -/
def initialSessionState : SessionState := ⟨false, false⟩

/-- Attaching a fresh ContentTranslator to a document (constructor plus init,
content-script.js 39 to 75): the constructor sets isPageTranslated to false and init
loads constants, preferences and listeners; no step reads the document for existing
translation-append markers, so the attached document does not influence the initial
state. -/
def contentTranslatorAttach (_doc : Dom) : SessionState := initialSessionState

/-- The stored language preferences (sourceLanguage may be the tag auto). -/
structure LanguagePreference where
  sourceLanguage : String
  targetLanguage : String
deriving Repr, DecidableEq

/-- The ambient context of the content script: the host capabilities reached through
the background worker, and the window dimensions used by the viewport check. -/
structure PageEnv where
  host : HostEnv
  windowWidth : Int
  windowHeight : Int

/-- The optional language fields of a TRANSLATE_PAGE message; a missing field falls
back to the stored preference (the or-else defaulting at content-script.js 860 to
861). -/
structure TranslatePageMessage where
  sourceLanguage : Option String
  targetLanguage : Option String

/-- The result of one full-page sweep: the mutated document, the session state after
the run, the response fields success and translatedCount, the number of engine
invocations, and the user-facing toast messages raised after fragment collection. -/
structure SweepOutcome where
  doc : Dom
  state : SessionState
  success : Bool
  translatedCount : Nat
  engineCalls : Nat
  messages : List String
deriving DecidableEq

/-- One iteration of the per-fragment loop of handleTranslatePage (content-script.js
890 to 922) over an accumulator of document, translated count and engine calls:
re-trim the fragment text, skip it unless its length is in 1 to 500, translate it
through the background worker, and attach a translated annotation on a changed
non-empty result or a failed annotation on an error or an unchanged or empty
result. -/
def sweepStep (env : PageEnv) (sourceLanguage targetLanguage : String)
    (acc : Dom × Nat × Nat) (f : Fragment) : Dom × Nat × Nat :=
  if 0 < (jsTrim f.content).length ∧ (jsTrim f.content).length ≤ 500 then
    match translateText env.host (jsTrim f.content) sourceLanguage targetLanguage with
    | (Except.ok r, log) =>
        if r.result ≠ "" ∧ r.result ≠ jsTrim f.content then
          (appendTranslationToNode acc.1 f.nodeId r.result false, acc.2.1 + 1,
            acc.2.2 + log.engineCalls)
        else
          (appendTranslationToNode acc.1 f.nodeId "" true, acc.2.1, acc.2.2 + log.engineCalls)
    | (Except.error _, log) =>
        (appendTranslationToNode acc.1 f.nodeId "" true, acc.2.1, acc.2.2 + log.engineCalls)
  else acc

/-- ContentTranslator.handleTranslatePage (content-script.js 855 to 946): resolve the
language pair, collect the visible fragments (empty collection surfaces a toast and
returns early), run the sequential per-fragment loop, and afterwards set
isPageTranslated to whether any fragment received a translated annotation, attaching
the scroll listener exactly in that case. -/
def handleTranslatePage (env : PageEnv) (msg : TranslatePageMessage)
    (prefs : LanguagePreference) (doc : Dom) (st : SessionState) : SweepOutcome :=
  let sourceLanguage := msg.sourceLanguage.getD prefs.sourceLanguage
  let targetLanguage := msg.targetLanguage.getD prefs.targetLanguage
  let visibleTextNodes := getVisibleTextNodes env.windowWidth env.windowHeight doc
  if visibleTextNodes = [] then
    { doc := doc, state := st, success := false, translatedCount := 0, engineCalls := 0,
      messages := ["可视区域内没有找到可翻译的文本内容"] }
  else
    let texts := (visibleTextNodes.map (fun f => jsTrim f.content)).filter
      (fun t => decide (0 < t.length) && decide (t.length ≤ 500))
    if texts = [] then
      { doc := doc, state := st, success := false, translatedCount := 0, engineCalls := 0,
        messages := ["没有找到符合翻译条件的文本内容"] }
    else
      let r := visibleTextNodes.foldl (sweepStep env sourceLanguage targetLanguage) (doc, 0, 0)
      { doc := r.1,
        state := { isPageTranslated := decide (0 < r.2.1),
                   scrollListenerActive := if 0 < r.2.1 then true else st.scrollListenerActive },
        success := decide (0 < r.2.1),
        translatedCount := r.2.1,
        engineCalls := r.2.2,
        messages :=
          if 0 < r.2.1 then
            ["可视区域翻译完成，共翻译了 " ++ toString r.2.1 ++ " 个文本片段"]
          else ["没有成功翻译任何文本，请检查网络连接或稍后重试"] }

/-- ContentTranslator.handleCancelTranslatePage (content-script.js 951 to 975):
remove every translation-append element from the document, detach the scroll
listener, and reset isPageTranslated to false. -/
def handleCancelTranslatePage (doc : Dom) (_st : SessionState) : Dom × SessionState :=
  (removeAllAppend doc, { isPageTranslated := false, scrollListenerActive := false })

/-- The per-fragment loop of handleTranslatePage interleaved with one cancellation:
the event loop is single threaded and the loop body suspends at the await of
translateText, so a CANCEL_TRANSLATE_PAGE message processed while fragment number
cancelAt (0-based) is awaiting its translation runs handleCancelTranslatePage on the
document of that moment, after which the pending iteration resumes and the loop keeps
going — no cancellation flag is consulted inside the loop (content-script.js 890 to
922). -/
def sweepLoopWithCancel (env : PageEnv) (sourceLanguage targetLanguage : String)
    (cancelAt : Nat) : List Fragment → Nat → Dom × Nat × Nat → Dom × Nat × Nat
  | [], _, acc => acc
  | f :: rest, i, acc =>
      let docNow := if i = cancelAt then removeAllAppend acc.1 else acc.1
      sweepLoopWithCancel env sourceLanguage targetLanguage cancelAt rest (i + 1)
        (sweepStep env sourceLanguage targetLanguage (docNow, acc.2.1, acc.2.2) f)

/-- handleTranslatePage with the cancellation interleaving of sweepLoopWithCancel.
After the loop, line 936 of content-script.js unconditionally assigns
isPageTranslated from translatedCount, overwriting the false the cancel handler set;
the scroll listener, detached by the cancel handler, is re-attached exactly when the
count is positive. -/
def handleTranslatePageWithCancel (env : PageEnv) (msg : TranslatePageMessage)
    (prefs : LanguagePreference) (doc : Dom) (st : SessionState) (cancelAt : Nat) :
    SweepOutcome :=
  let sourceLanguage := msg.sourceLanguage.getD prefs.sourceLanguage
  let targetLanguage := msg.targetLanguage.getD prefs.targetLanguage
  let visibleTextNodes := getVisibleTextNodes env.windowWidth env.windowHeight doc
  if visibleTextNodes = [] then
    { doc := doc, state := st, success := false, translatedCount := 0, engineCalls := 0,
      messages := ["可视区域内没有找到可翻译的文本内容"] }
  else
    let texts := (visibleTextNodes.map (fun f => jsTrim f.content)).filter
      (fun t => decide (0 < t.length) && decide (t.length ≤ 500))
    if texts = [] then
      { doc := doc, state := st, success := false, translatedCount := 0, engineCalls := 0,
        messages := ["没有找到符合翻译条件的文本内容"] }
    else
      let cancelled := decide (cancelAt < visibleTextNodes.length)
      let r := sweepLoopWithCancel env sourceLanguage targetLanguage cancelAt
        visibleTextNodes 0 (doc, 0, 0)
      { doc := r.1,
        state := { isPageTranslated := decide (0 < r.2.1),
                   scrollListenerActive :=
                     if 0 < r.2.1 then true
                     else if cancelled then false else st.scrollListenerActive },
        success := decide (0 < r.2.1),
        translatedCount := r.2.1,
        engineCalls := r.2.2,
        messages :=
          if 0 < r.2.1 then
            ["可视区域翻译完成，共翻译了 " ++ toString r.2.1 ++ " 个文本片段"]
          else ["没有成功翻译任何文本，请检查网络连接或稍后重试"] }

/-! ### Scroll-triggered incremental sweep (translateNewlyVisibleContent) -/

/-- One entry of the results array built by translateNewlyVisibleContent
(content-script.js 1150 to 1165). -/
structure IncItem where
  original : String
  translated : String
deriving Repr, DecidableEq

/-- The result-building step of translateNewlyVisibleContent: on success the
translation falls back to the original when empty (result or-else text); on an error
the original is pushed, with no failed marker recorded. -/
def incResult (env : PageEnv) (sourceLanguage targetLanguage : String) (text : String) :
    IncItem :=
  match (translateText env.host text sourceLanguage targetLanguage).1 with
  | Except.ok r => ⟨text, if r.result = "" then text else r.result⟩
  | Except.error _ => ⟨text, text⟩

/-- The application loop of translateNewlyVisibleContent (content-script.js 1168 to
1183): walk the nodes, advance resultIndex only on qualifying nodes, and annotate —
always as a translated annotation — exactly when the recorded translation differs
from the original; an exhausted results array (undefined entry) skips silently. -/
def applyIncLoop : List Fragment → List IncItem → Dom → Nat → Dom × Nat
  | [], _, doc, count => (doc, count)
  | f :: rest, results, doc, count =>
      if 0 < (jsTrim f.content).length ∧ (jsTrim f.content).length ≤ 500 then
        match results with
        | [] => applyIncLoop rest [] doc count
        | r :: rs =>
            if r.translated ≠ r.original then
              applyIncLoop rest rs (appendTranslationToNode doc f.nodeId r.translated false)
                (count + 1)
            else applyIncLoop rest rs doc count
      else applyIncLoop rest results doc count

/-- ContentTranslator.translateNewlyVisibleContent (content-script.js 1117 to 1191):
bail out unless the page is marked translated; re-collect the page text nodes,
keeping those in the viewport whose parent has no translation-append descendant;
translate the qualifying texts sequentially through the background worker; then apply
the results to the nodes. Returns the mutated document and the translated count. -/
def translateNewlyVisibleContent (env : PageEnv) (sourceLanguage targetLanguage : String)
    (doc : Dom) (st : SessionState) : Dom × Nat :=
  if !st.isPageTranslated then (doc, 0)
  else
    let allTextNodes := getPageTextNodes doc
    let newlyVisibleNodes := allTextNodes.filter (fun f =>
      isElementInViewport env.windowWidth env.windowHeight f.parentRect && !f.parentHasAppend)
    if newlyVisibleNodes = [] then (doc, 0)
    else
      let texts := (newlyVisibleNodes.map (fun f => jsTrim f.content)).filter
        (fun t => decide (0 < t.length) && decide (t.length ≤ 500))
      if texts = [] then (doc, 0)
      else
        applyIncLoop newlyVisibleNodes
          (texts.map (incResult env sourceLanguage targetLanguage)) doc 0

/-! ### Selection handling (handleTextSelection) -/

/-- The observable outcome of one selection event: whether the translation icon was
shown and for which text, how many selection-too-long toasts were raised, whether the
overlay was hidden, and how many engine calls were made. -/
structure SelectionOutcome where
  iconShown : Bool
  iconText : String
  tooLongToasts : Nat
  overlayHidden : Bool
  engineCalls : Nat
deriving Repr, DecidableEq

/-- ContentTranslator.handleTextSelection (content-script.js 164 to 198), after the
settle delay: trim the selection; a non-empty selection of at most 5000 characters
shows the translation icon near it (showTranslationIcon first hides any previous
overlay); an empty selection hides the overlay only when no popup is open; a longer
selection raises exactly one too-long toast and shows nothing. No branch calls the
translation engine — translation happens only on a later icon click. -/
def handleTextSelection (selectionString : String) (hasPopup : Bool) : SelectionOutcome :=
  let selectedText := jsTrim selectionString
  if 0 < selectedText.length ∧ selectedText.length ≤ 5000 then
    { iconShown := true, iconText := selectedText, tooLongToasts := 0,
      overlayHidden := true, engineCalls := 0 }
  else if selectedText.length = 0 then
    if hasPopup then
      { iconShown := false, iconText := "", tooLongToasts := 0,
        overlayHidden := false, engineCalls := 0 }
    else
      { iconShown := false, iconText := "", tooLongToasts := 0,
        overlayHidden := true, engineCalls := 0 }
  else
    { iconShown := false, iconText := "", tooLongToasts := 1,
      overlayHidden := false, engineCalls := 0 }

/-! ### Concrete inputs used by witnesses and counterexamples -/

/-- A host where both capabilities are present, detection always yields en, and the
engine prefixes the text. -/
def exEnv : HostEnv :=
  ⟨true, true, fun _ => some "en", fun text _ _ => Except.ok ("译" ++ text)⟩

/-- A host whose engine throws exactly on the text bad. -/
def batchEnv : HostEnv :=
  ⟨true, true, fun _ => some "en",
   fun text _ _ => if text = "bad" then Except.error "boom" else Except.ok ("译" ++ text)⟩

/-- A bounding rect inside a 800 by 600 viewport. -/
def inViewRect : Rect := ⟨0, 0, 300, 20⟩

/-- A plain content div whose rect is in the viewport. -/
def divData : ElemData := ⟨"div", "", [], inViewRect⟩

/-- The body element of the example documents. -/
def bodyData : ElemData := ⟨"body", "", [], ⟨0, 0, 800, 600⟩⟩

/-- A div holding one text node. -/
def mkFragmentDiv (i : Nat) (s : String) : Dom :=
  .elem divData (DomList.ofList [Dom.text i s])

/-- A body with no content at all. -/
def emptyBodyDoc : Dom := .elem bodyData .nil

/-- The page context with the well-behaved host. -/
def pageEnvOk : PageEnv := ⟨exEnv, 800, 600⟩

/-- The page context with an always-throwing engine. -/
def pageEnvFail : PageEnv :=
  ⟨⟨true, true, fun _ => some "en", fun _ _ _ => Except.error "boom"⟩, 800, 600⟩

/-- A TRANSLATE_PAGE message fixing the pair en to zh. -/
def enToZhMsg : TranslatePageMessage := ⟨some "en", some "zh"⟩

/-- A TRANSLATE_PAGE message with no language fields. -/
def noLangMsg : TranslatePageMessage := ⟨none, none⟩

/-- The default stored preferences of the extension. -/
def defaultPrefs : LanguagePreference := ⟨"auto", "zh-CN"⟩

/-- A session that has completed a sweep: page translated, scroll listener active. -/
def translatedState : SessionState := ⟨true, true⟩

/-- Ten in-viewport fragments with node labels 1 to 10. -/
def sweepDoc10 : Dom :=
  .elem bodyData (DomList.ofList
    [mkFragmentDiv 1 "one", mkFragmentDiv 2 "two", mkFragmentDiv 3 "three",
     mkFragmentDiv 4 "four", mkFragmentDiv 5 "five", mkFragmentDiv 6 "six",
     mkFragmentDiv 7 "seven", mkFragmentDiv 8 "eight", mkFragmentDiv 9 "nine",
     mkFragmentDiv 10 "ten"])

/-- The cancel-mid-sweep run of the ten-fragment document: the cancel handler runs
while fragment number 5 (0-based index 4) awaits its translation. -/
def cancelSweepOutcome : SweepOutcome :=
  handleTranslatePageWithCancel pageEnvOk enToZhMsg defaultPrefs sweepDoc10
    initialSessionState 4

/-- A document whose two fragments have nested parents: text 1 sits in an inner div,
text 2 is a direct child of the outer div, so the scan returns fragment 1 before
fragment 2 and both parents share a subtree. -/
def nestedDoc : Dom :=
  .elem bodyData (DomList.ofList
    [Dom.elem divData (DomList.ofList
      [Dom.elem divData (DomList.ofList [Dom.text 1 "aaa"]),
       Dom.text 2 "bbb"])])

/-- Annotate every fragment the scan returns, in scan order, as a translated
annotation — the premise of the idempotence claim. -/
def annotateAllReturned (doc : Dom) : Dom :=
  (getPageTextNodes doc).foldl (fun d f => appendTranslationToNode d f.nodeId "译文" false) doc

/-- A single in-viewport fragment. -/
def singleFragDoc : Dom := .elem bodyData (DomList.ofList [mkFragmentDiv 1 "kaboom"])

/-- Two in-viewport fragments. -/
def twoFragDoc : Dom :=
  .elem bodyData (DomList.ofList [mkFragmentDiv 1 "one", mkFragmentDiv 2 "two"])

/-- A document already carrying two Annotation markers, as left behind by an earlier
content-script instance. -/
def reattachDoc : Dom :=
  .elem bodyData (DomList.ofList
    [Dom.elem divData (DomList.ofList [Dom.text 1 "hello", annotationSpan " [你好]"]),
     Dom.elem divData (DomList.ofList [Dom.text 2 "world", annotationSpan " [世界]"])])

/-- Does the background translate call for this text succeed with a non-empty result
different from the input? This is the condition under which both sweep paths attach a
translated annotation. -/
def successChangedB (env : HostEnv) (text sourceLanguage targetLanguage : String) : Bool :=
  match (translateText env text sourceLanguage targetLanguage).1 with
  | Except.ok r => !(r.result == "") && !(r.result == text)
  | Except.error _ => false

instance {α β : Type} [DecidableEq α] [DecidableEq β] : DecidableEq (Except α β)
  | .ok a, .ok b =>
      if h : a = b then isTrue (by rw [h]) else isFalse (by simp [h])
  | .ok _, .error _ => isFalse (by simp)
  | .error _, .ok _ => isFalse (by simp)
  | .error a, .error b =>
      if h : a = b then isTrue (by rw [h]) else isFalse (by simp [h])

/-! ### Helper lemmas -/

/-- Replacing only the first underscore and replacing every underscore agree on the
prefix that precedes the first dash. -/
theorem takeWhile_replaceFirst (l : List Char) :
    (replaceFirstUnderscore l).takeWhile (fun c => c ≠ '-') =
      (l.map (fun c => if c = '_' then '-' else c)).takeWhile (fun c => c ≠ '-') := by
  induction l with
  | nil => rfl
  | cons c cs ih =>
      by_cases hc : c = '_'
      · subst hc
        simp [replaceFirstUnderscore, List.takeWhile]
      · by_cases hd : c = '-'
        · subst hd
          simp [replaceFirstUnderscore, List.takeWhile]
        · simp [replaceFirstUnderscore, List.takeWhile, hc, hd]
          simpa using ih

/-- A qualifying text has trimmed length between 1 and 500. -/
theorem textQualifies_length {s : String} (h : textQualifies s = true) :
    0 < (jsTrim s).length ∧ (jsTrim s).length ≤ 500 := by
  unfold textQualifies at h
  split at h
  · simp at h
  · next h' =>
      push_neg at h'
      omega

/-- Every fragment the traversal emits has qualifying text and records a parent with
no translation-append descendant, provided acceptance implies that absence (which the
traversal maintains). -/
theorem collect_fragment_inv (accept ownUI : Bool) (prect : Rect) (phasApp : Bool)
    (l : DomList) :
    (accept = true → phasApp = false) →
    ∀ f ∈ collectChildren accept ownUI prect phasApp l,
      textQualifies f.content = true ∧ f.parentHasAppend = false := by
  induction accept, ownUI, prect, phasApp, l using collectChildren.induct with
  | case1 accept ownUI prect phasApp =>
      intro _ f hf
      simp [collectChildren] at hf
  | case2 accept ownUI prect phasApp i s rest ih =>
      intro hinv f hf
      simp only [collectChildren, List.mem_append] at hf
      rcases hf with hf | hf
      · by_cases hq : (accept && textQualifies s) = true
        · rw [if_pos hq] at hf
          simp only [List.mem_singleton] at hf
          subst hf
          simp only [Bool.and_eq_true] at hq
          exact ⟨hq.2, hinv hq.1⟩
        · rw [if_neg hq] at hf
          simp at hf
      · exact ih hinv f hf
  | case3 accept ownUI prect phasApp d cs rest ih1 ih2 =>
      intro hinv f hf
      simp only [collectChildren, List.mem_append] at hf
      rcases hf with hf | hf
      · refine ih1 ?_ f hf
        intro hacc
        simp only [Bool.and_eq_true, Bool.not_eq_true'] at hacc
        exact hacc.2
      · exact ih2 hinv f hf

/-- Every fragment returned by the page scan has qualifying text and a parent with no
translation-append descendant. -/
theorem getPageTextNodes_inv (doc : Dom) :
    ∀ f ∈ getPageTextNodes doc, textQualifies f.content = true ∧ f.parentHasAppend = false := by
  cases doc with
  | text i s =>
      intro f hf
      simp [getPageTextNodes] at hf
  | elem d cs =>
      refine collect_fragment_inv _ _ _ _ _ ?_
      intro hacc
      simp only [Bool.and_eq_true, Bool.not_eq_true'] at hacc
      exact hacc.2

/-- The incremental re-filter (viewport and no annotated parent) selects exactly the
visible fragments, because scanned fragments never record an annotated parent. -/
theorem newlyVisible_eq_visible (ww wh : Int) (doc : Dom) :
    (getPageTextNodes doc).filter
      (fun f => isElementInViewport ww wh f.parentRect && !f.parentHasAppend) =
    getVisibleTextNodes ww wh doc := by
  unfold getVisibleTextNodes
  refine List.filter_congr ?_
  intro f hf
  rw [(getPageTextNodes_inv doc f hf).2]
  simp

/-- The length re-filter of the sweeps keeps every trimmed text of qualifying
fragments. -/
theorem texts_filter_id (frs : List Fragment)
    (h : ∀ f ∈ frs, textQualifies f.content = true) :
    (frs.map (fun f => jsTrim f.content)).filter
      (fun t => decide (0 < t.length) && decide (t.length ≤ 500)) =
    frs.map (fun f => jsTrim f.content) := by
  rw [List.filter_eq_self]
  intro a ha
  simp only [List.mem_map] at ha
  obtain ⟨f, hf, rfl⟩ := ha
  have hl := textQualifies_length (h f hf)
  simp only [Bool.and_eq_true, decide_eq_true_eq]
  exact hl

/-- On fragments that all qualify and all translate successfully to a changed
non-empty result, the incremental application loop produces the same document and the
same translated count as the full-sweep loop. -/
theorem applyIncLoop_eq_sweep (env : PageEnv) (sourceLanguage targetLanguage : String) :
    ∀ (frs : List Fragment) (doc : Dom) (count calls : Nat),
      (∀ f ∈ frs, textQualifies f.content = true ∧
        successChangedB env.host (jsTrim f.content) sourceLanguage targetLanguage = true) →
      applyIncLoop frs
        ((frs.map (fun f => jsTrim f.content)).map (incResult env sourceLanguage targetLanguage))
        doc count =
      ((frs.foldl (sweepStep env sourceLanguage targetLanguage) (doc, count, calls)).1,
       (frs.foldl (sweepStep env sourceLanguage targetLanguage) (doc, count, calls)).2.1) := by
  intro frs
  induction frs with
  | nil => intro doc count calls _; rfl
  | cons f rest ih =>
      intro doc count calls h
      obtain ⟨hq, hs⟩ := h f (List.mem_cons_self f rest)
      have hrest : ∀ g ∈ rest, textQualifies g.content = true ∧
          successChangedB env.host (jsTrim g.content) sourceLanguage targetLanguage = true :=
        fun g hg => h g (List.mem_cons_of_mem f hg)
      have hlen := textQualifies_length hq
      rcases hm : translateText env.host (jsTrim f.content) sourceLanguage targetLanguage
        with ⟨res, log⟩
      cases res with
      | error e =>
          exfalso
          unfold successChangedB at hs
          rw [hm] at hs
          simp at hs
      | ok r =>
          unfold successChangedB at hs
          rw [hm] at hs
          simp only [Bool.and_eq_true, Bool.not_eq_true', beq_eq_false_iff_ne] at hs
          obtain ⟨hr1, hr2⟩ := hs
          have hinc : incResult env sourceLanguage targetLanguage (jsTrim f.content) =
              ⟨jsTrim f.content, r.result⟩ := by
            unfold incResult
            rw [hm]
            simp [hr1]
          have hstep : sweepStep env sourceLanguage targetLanguage (doc, count, calls) f =
              (appendTranslationToNode doc f.nodeId r.result false, count + 1,
                calls + log.engineCalls) := by
            unfold sweepStep
            rw [if_pos hlen, hm]
            dsimp only
            rw [if_pos ⟨hr1, hr2⟩]
          simp only [List.map_cons, applyIncLoop, List.foldl_cons]
          rw [if_pos hlen, hinc, hstep]
          dsimp only
          rw [if_pos hr2]
          exact ih (appendTranslationToNode doc f.nodeId r.result false) (count + 1)
            (calls + log.engineCalls) hrest

/-! ### Claim theorems -/

/-- C8: normalizeLanguage is a pure total function that lower-cases, turns the
underscore into a dash, splits on dashes and returns the first segment; the empty
string and a null argument map to the empty string; en-US, en-GB reduce to en and
zh_CN, zh-Hans reduce to zh. -/
theorem normalizeLanguage_contract :
    (∀ tag : String, normalizeLanguage tag = normalizeSpec tag) ∧
    normalizeLanguageOpt none = "" ∧ normalizeLanguage "" = "" ∧
    normalizeLanguage "en-US" = "en" ∧ normalizeLanguage "en-GB" = "en" ∧
    normalizeLanguage "zh_CN" = "zh" ∧ normalizeLanguage "zh-Hans" = "zh" := by
  refine ⟨?_, rfl, rfl, by decide, by decide, by decide, by decide⟩
  intro tag
  unfold normalizeLanguage normalizeSpec
  by_cases h : tag = ""
  · simp [h]
  · rw [if_neg h, if_neg h]
    exact congrArg String.mk (takeWhile_replaceFirst (jsToLower tag).data)

/-- C10: smartTranslate rejects blank input — for empty or whitespace-only text it
throws before any detection or engine call. -/
theorem smartTranslate_blank_rejected (env : HostEnv) (text sourceLanguage targetLanguage : String)
    (h : jsTrim text = "") :
    smartTranslate env text sourceLanguage targetLanguage =
      (Except.error "翻译文本不能为空", ⟨0, 0⟩) := by
  unfold smartTranslate
  simp [h]

/-- Witness for C10 at the whitespace-only text. -/
theorem smartTranslate_blank_rejected_witness :
    jsTrim "   " = "" ∧
    smartTranslate exEnv "   " "auto" "zh-CN" = (Except.error "翻译文本不能为空", ⟨0, 0⟩) :=
  ⟨by decide, smartTranslate_blank_rejected exEnv "   " "auto" "zh-CN" (by decide)⟩

/-- C1: for non-blank text, whenever the resolved source language (after detection
when the source tag is auto) normalizes to the same primary subtag as the target,
smartTranslate returns the input text unchanged and performs zero engine calls. -/
theorem smartTranslate_same_language_identity (env : HostEnv)
    (text sourceLanguage targetLanguage : String)
    (hne : jsTrim text ≠ "")
    (hsame : normalizeLanguage (resolveSource env text sourceLanguage) =
      normalizeLanguage targetLanguage) :
    smartTranslate env text sourceLanguage targetLanguage =
      (Except.ok ⟨text, resolveSource env text sourceLanguage, targetLanguage⟩,
        ⟨if sourceLanguage = "auto" then 1 else 0, 0⟩) := by
  unfold smartTranslate
  simp [hne, hsame]

/-- Witness for C1: auto-detection resolves hello to en, which normalizes like the
target en-US, so the call is the identity with zero engine calls. -/
theorem smartTranslate_same_language_identity_witness :
    jsTrim "hello" ≠ "" ∧
    normalizeLanguage (resolveSource exEnv "hello" "auto") = normalizeLanguage "en-US" ∧
    smartTranslate exEnv "hello" "auto" "en-US" =
      (Except.ok ⟨"hello", "en", "en-US"⟩, ⟨1, 0⟩) := by
  refine ⟨by decide, by decide, ?_⟩
  exact (smartTranslate_same_language_identity exEnv "hello" "auto" "en-US"
    (by decide) (by decide)).trans (by decide)

/-- C3 counterexample: a fresh attach to a document that already carries two
Annotation markers still initializes isPageTranslated to false, refuting the claimed
Translated initial state. -/
theorem attach_existing_annotations_cex :
    countAppend reattachDoc = 2 ∧
    (contentTranslatorAttach reattachDoc).isPageTranslated ≠ true := by decide

/-- C3 amended: the initial state of a freshly attached content-script session is
Idle regardless of the attached document — no scan for existing Annotation markers is
performed. -/
theorem attach_initial_state_idle :
    ∀ doc : Dom, contentTranslatorAttach doc = initialSessionState ∧
      (contentTranslatorAttach doc).isPageTranslated = false :=
  fun _ => ⟨rfl, rfl⟩

/-- C9: a selection event never calls the engine; the icon is shown exactly when the
trimmed selection is non-empty with at most 5000 characters, carrying that trimmed
text; a longer selection raises exactly one too-long toast and shows no icon. -/
theorem selection_overlay_contract (s : String) (hasPopup : Bool) :
    (handleTextSelection s hasPopup).engineCalls = 0 ∧
    (handleTextSelection s hasPopup).iconShown =
      (decide (0 < (jsTrim s).length) && decide ((jsTrim s).length ≤ 5000)) ∧
    (handleTextSelection s hasPopup).iconText =
      (if 0 < (jsTrim s).length ∧ (jsTrim s).length ≤ 5000 then jsTrim s else "") ∧
    (handleTextSelection s hasPopup).tooLongToasts =
      (if 5000 < (jsTrim s).length then 1 else 0) := by
  unfold handleTextSelection
  by_cases h1 : 0 < (jsTrim s).length ∧ (jsTrim s).length ≤ 5000
  · have h2 : ¬ (5000 < (jsTrim s).length) := by omega
    simp [h1, h2]
  · by_cases h0 : (jsTrim s).length = 0
    · have h2 : ¬ (5000 < (jsTrim s).length) := by omega
      by_cases hp : hasPopup <;> simp [h1, h0, hp, h2]
    · have h2 : 5000 < (jsTrim s).length := by omega
      simp [h1, h0, h2]

/-- C2 counterexample: in the ten-fragment sweep with the cancel handler running
while fragment 5 awaits its translation, fragment 5 does receive an Annotation once
its translation resolves, and fragment 1 — annotated before the cancel — ends up with
no Annotation, contradicting the claimed outcome of annotations only on fragments 1
to 4. -/
theorem sweep_cancel_claim_cex :
    annotationAfterNode cancelSweepOutcome.doc 5 = true ∧
    annotationAfterNode cancelSweepOutcome.doc 1 = false := by decide

/-- C2 amended: the cancel handler removes every Annotation present at that moment
and resets the state, but the in-flight loop consults no cancellation flag: in the
ten-fragment sweep cancelled before fragment 5 resolves, the final document carries
annotations exactly on fragments 5 to 10, none on 1 to 4, and the post-loop
assignment marks the page translated again with all ten fragments counted. -/
theorem sweep_cancel_behavior :
    (∀ (doc : Dom) (st : SessionState),
        handleCancelTranslatePage doc st = (removeAllAppend doc, ⟨false, false⟩)) ∧
    annotationAfterNode cancelSweepOutcome.doc 1 = false ∧
    annotationAfterNode cancelSweepOutcome.doc 2 = false ∧
    annotationAfterNode cancelSweepOutcome.doc 3 = false ∧
    annotationAfterNode cancelSweepOutcome.doc 4 = false ∧
    annotationAfterNode cancelSweepOutcome.doc 5 = true ∧
    annotationAfterNode cancelSweepOutcome.doc 6 = true ∧
    annotationAfterNode cancelSweepOutcome.doc 7 = true ∧
    annotationAfterNode cancelSweepOutcome.doc 8 = true ∧
    annotationAfterNode cancelSweepOutcome.doc 9 = true ∧
    annotationAfterNode cancelSweepOutcome.doc 10 = true ∧
    cancelSweepOutcome.state.isPageTranslated = true ∧
    cancelSweepOutcome.translatedCount = 10 :=
  ⟨fun _ _ => rfl, by decide⟩

/-- C7: evaluation at the failing input. On the nested document the scan returns
fragments 1 and 2; after annotating both of them, in scan order, through
appendTranslationToNode, a further scan is not empty: annotating fragment 2 removed
the annotation of fragment 1 (parent.querySelector matched the nested span first), so
fragment 1 is selected again. -/
theorem scan_idempotence_failing_input :
    getPageTextNodes nestedDoc =
      [⟨1, "aaa", inViewRect, false⟩, ⟨2, "bbb", inViewRect, false⟩] ∧
    (getPageTextNodes (annotateAllReturned nestedDoc)).map Fragment.nodeId = [1] ∧
    getPageTextNodes (annotateAllReturned nestedDoc) ≠ [] := by decide

/-- C5: starting from an Idle session, a full sweep ends with isPageTranslated true
exactly when at least one fragment received a translated annotation; and when the
visible-fragment collection is empty it surfaces the nothing-to-translate message
and returns with the document, state and engine-call count untouched. -/
theorem full_sweep_state_iff (env : PageEnv) (msg : TranslatePageMessage)
    (prefs : LanguagePreference) (doc : Dom) (st : SessionState)
    (hidle : st.isPageTranslated = false) :
    ((handleTranslatePage env msg prefs doc st).state.isPageTranslated = true ↔
      0 < (handleTranslatePage env msg prefs doc st).translatedCount) ∧
    (getVisibleTextNodes env.windowWidth env.windowHeight doc = [] →
      (handleTranslatePage env msg prefs doc st).doc = doc ∧
      (handleTranslatePage env msg prefs doc st).state = st ∧
      (handleTranslatePage env msg prefs doc st).engineCalls = 0 ∧
      (handleTranslatePage env msg prefs doc st).success = false ∧
      (handleTranslatePage env msg prefs doc st).messages =
        ["可视区域内没有找到可翻译的文本内容"]) := by
  unfold handleTranslatePage
  by_cases hv : getVisibleTextNodes env.windowWidth env.windowHeight doc = []
  · simp [hv, hidle]
  · by_cases ht : ((getVisibleTextNodes env.windowWidth env.windowHeight doc).map
        (fun f => jsTrim f.content)).filter
        (fun t => decide (0 < t.length) && decide (t.length ≤ 500)) = []
    · simp [hv, ht, hidle]
    · simp [hv, ht]

/-- Witness for C5 at a document with nothing visible to translate. -/
theorem full_sweep_state_iff_witness :
    initialSessionState.isPageTranslated = false ∧
    getVisibleTextNodes pageEnvOk.windowWidth pageEnvOk.windowHeight emptyBodyDoc = [] ∧
    (handleTranslatePage pageEnvOk noLangMsg defaultPrefs emptyBodyDoc
      initialSessionState).messages = ["可视区域内没有找到可翻译的文本内容"] ∧
    (handleTranslatePage pageEnvOk noLangMsg defaultPrefs emptyBodyDoc
      initialSessionState).engineCalls = 0 := by
  have h := full_sweep_state_iff pageEnvOk noLangMsg defaultPrefs emptyBodyDoc
    initialSessionState rfl
  have h2 := h.2 (by decide)
  exact ⟨rfl, by decide, h2.2.2.2.2, h2.2.2.1⟩

/-- C6: batchTranslate returns one result per input, in order, each carrying its
original text; an item whose smartTranslate call throws falls back to the original
text as its translation, and a successful item carries the real translation — the
per-item results are independent, so one bad item never aborts the batch. -/
theorem batchTranslate_isolation (env : HostEnv) (texts : List String)
    (sourceLanguage targetLanguage : String) :
    (batchTranslate env texts sourceLanguage targetLanguage).length = texts.length ∧
    ∀ (i : Nat) (txt : String) (item : BatchItem),
      texts[i]? = some txt →
      (batchTranslate env texts sourceLanguage targetLanguage)[i]? = some item →
      item.original = txt ∧
      (∀ e, (smartTranslate env txt sourceLanguage targetLanguage).1 = Except.error e →
        item.translated = txt) ∧
      (∀ r, (smartTranslate env txt sourceLanguage targetLanguage).1 = Except.ok r →
        item.translated = r.result ∧ item.sourceLanguage = r.sourceLanguage) := by
  refine ⟨by simp [batchTranslate], ?_⟩
  intro i txt item hi hitem
  unfold batchTranslate at hitem
  rw [List.getElem?_map, hi] at hitem
  simp only [Option.map_some'] at hitem
  have hitem2 := Option.some.inj hitem
  cases hm : (smartTranslate env txt sourceLanguage targetLanguage).1 with
  | ok r =>
      rw [hm] at hitem2
      simp only [] at hitem2
      subst hitem2
      refine ⟨rfl, ?_, ?_⟩
      · intro e he
        exact absurd he (by simp)
      · intro r' hr
        injection hr with h'
        subst h'
        exact ⟨rfl, rfl⟩
  | error e =>
      rw [hm] at hitem2
      simp only [] at hitem2
      subst hitem2
      refine ⟨rfl, ?_, ?_⟩
      · intro e' _
        rfl
      · intro r' hr
        exact absurd hr (by simp)

/-- Witness for C6 at the batch-isolation scenario of the spec: the middle item bad
throws, the result still has three entries and bad falls back to itself. -/
theorem batchTranslate_isolation_witness :
    (batchTranslate batchEnv ["ok", "bad", "ok2"] "en" "zh").length = 3 ∧
    ∃ item : BatchItem,
      (batchTranslate batchEnv ["ok", "bad", "ok2"] "en" "zh")[1]? = some item ∧
      item.translated = "bad" := by
  have h := batchTranslate_isolation batchEnv ["ok", "bad", "ok2"] "en" "zh"
  refine ⟨h.1.trans (by decide), ⟨"bad", "bad", "en"⟩, by decide, ?_⟩
  exact (h.2 1 "bad" ⟨"bad", "bad", "en"⟩ (by decide) (by decide)).2.1
    "翻译失败: boom" (by decide)

/-- C4 counterexample: on a single fragment whose translation throws, the full sweep
attaches a failed Annotation while the scroll-triggered incremental path leaves the
document untouched, so the two paths do not produce the same annotations. -/
theorem incremental_full_sweep_cex :
    (translateNewlyVisibleContent pageEnvFail "en" "zh" singleFragDoc translatedState).1 =
      singleFragDoc ∧
    annotationAfterNode (handleTranslatePage pageEnvFail enToZhMsg defaultPrefs singleFragDoc
      initialSessionState).doc 1 = true ∧
    (translateNewlyVisibleContent pageEnvFail "en" "zh" singleFragDoc translatedState).1 ≠
      (handleTranslatePage pageEnvFail enToZhMsg defaultPrefs singleFragDoc
        initialSessionState).doc := by decide

/-- C4 amended: the incremental path shares the per-fragment translate of the full sweep
call and its translated-annotation rule, but not its failure policy or pacing — a
failing or identity-result fragment is left unannotated instead of receiving a failed
Annotation, and there is no inter-fragment delay. Consequently, whenever every
visible fragment translates successfully to a changed non-empty result, the
incremental path produces exactly the document and translated count of the full
sweep. -/
theorem incremental_translated_only_refinement (env : PageEnv)
    (sourceLanguage targetLanguage : String) (prefs : LanguagePreference) (doc : Dom)
    (st stFull : SessionState) (hst : st.isPageTranslated = true)
    (hsucc : ∀ f ∈ getVisibleTextNodes env.windowWidth env.windowHeight doc,
      successChangedB env.host (jsTrim f.content) sourceLanguage targetLanguage = true) :
    (translateNewlyVisibleContent env sourceLanguage targetLanguage doc st).1 =
      (handleTranslatePage env ⟨some sourceLanguage, some targetLanguage⟩ prefs doc
        stFull).doc ∧
    (translateNewlyVisibleContent env sourceLanguage targetLanguage doc st).2 =
      (handleTranslatePage env ⟨some sourceLanguage, some targetLanguage⟩ prefs doc
        stFull).translatedCount := by
  have hqual : ∀ f ∈ getVisibleTextNodes env.windowWidth env.windowHeight doc,
      textQualifies f.content = true := by
    intro f hf
    unfold getVisibleTextNodes at hf
    exact (getPageTextNodes_inv doc f (List.mem_of_mem_filter hf)).1
  have hall : ∀ f ∈ getVisibleTextNodes env.windowWidth env.windowHeight doc,
      textQualifies f.content = true ∧
      successChangedB env.host (jsTrim f.content) sourceLanguage targetLanguage = true :=
    fun f hf => ⟨hqual f hf, hsucc f hf⟩
  unfold translateNewlyVisibleContent handleTranslatePage
  rw [hst]
  by_cases hempty : getVisibleTextNodes env.windowWidth env.windowHeight doc = []
  · simp [newlyVisible_eq_visible, hempty]
  · have hfilter := texts_filter_id (getVisibleTextNodes env.windowWidth env.windowHeight doc)
      hqual
    have hmapne : (getVisibleTextNodes env.windowWidth env.windowHeight doc).map
        (fun f => jsTrim f.content) ≠ [] := by
      simpa using hempty
    have key := applyIncLoop_eq_sweep env sourceLanguage targetLanguage
      (getVisibleTextNodes env.windowWidth env.windowHeight doc) doc 0 0 hall
    simp only [newlyVisible_eq_visible, hfilter, Bool.not_true, Option.getD_some,
      if_neg hempty, if_neg hmapne, Bool.false_eq_true, if_false]
    constructor <;> rw [key]

/-- Witness for C4 at a two-fragment document where every translation succeeds with a
changed result: the incremental path reproduces the full-sweep document. -/
theorem incremental_translated_only_refinement_witness :
    translatedState.isPageTranslated = true ∧
    (∀ f ∈ getVisibleTextNodes pageEnvOk.windowWidth pageEnvOk.windowHeight twoFragDoc,
      successChangedB pageEnvOk.host (jsTrim f.content) "en" "zh" = true) ∧
    (translateNewlyVisibleContent pageEnvOk "en" "zh" twoFragDoc translatedState).1 =
      (handleTranslatePage pageEnvOk ⟨some "en", some "zh"⟩ defaultPrefs twoFragDoc
        initialSessionState).doc := by
  have hs : ∀ f ∈ getVisibleTextNodes pageEnvOk.windowWidth pageEnvOk.windowHeight twoFragDoc,
      successChangedB pageEnvOk.host (jsTrim f.content) "en" "zh" = true := by decide
  exact ⟨rfl, hs,
    (incremental_translated_only_refinement pageEnvOk "en" "zh" defaultPrefs twoFragDoc
      translatedState initialSessionState rfl hs).1⟩

end ChromeAiTranslator
